import Mathlib

/-!
Verification of the batch-wise CSV ingestion and anomaly-scoring backend.

This file gives a shallow embedding of the core functions of the repository
(Backend/app/services/data_processing.py, Backend/app/services/anomaly.py,
Backend/app/ml/feature_engineering.py) and proves or refutes the claims of
the specification against that embedding.

Modelling conventions:
- Python strings are Lean String values; the Python string primitives used
  by the code (lower, strip, replace, regex substitution) are modelled
  character by character on List Char for the ASCII range the code relies on.
- Python floats are modelled as rationals; a float NaN (or an absent value)
  is modelled as Option.none, since every comparison x > t the code performs
  is false both for NaN and for the 0 default of a missing key.
- pandas dataframes appear at two levels of detail: a column-name level
  (List String, in dataframe column order) for the feature-engineering
  claims, which only concern which columns exist, and a row level for the
  scoring claims, where each scored row carries the six required features.
- Database effects (UPDATE of anomaly_alert, INSERT into the history table)
  are modelled as a state record with two append-only logs and two commit
  points, mirroring the two separate commit calls of detect_and_update.
-/

set_option maxHeartbeats 1000000

namespace BatchWise

/-! ## Python character and string primitives -/

/-- Model of Python str.lower on one character (ASCII range, which is all the
source relies on). Mirrors the basic-latin mapping of CPython for ASCII. -/
def pyCharLower (c : Char) : Char :=
  if 65 ≤ c.toNat ∧ c.toNat ≤ 90 then Char.ofNat (c.toNat + 32) else c

/-- Model of Python str.lower. -/
def pyLowerList (l : List Char) : List Char :=
  l.map pyCharLower

/-- Model of Python str.lower on String. -/
def pyLower (s : String) : String :=
  ⟨pyLowerList s.data⟩

/-- Python str.strip strips these whitespace characters (ASCII range). -/
def pySpaceChars : List Char := [' ', '\t', '\n', '\r', '\x0b', '\x0c']

/-- Model of Python str.strip on a character list. -/
def pyStripList (l : List Char) : List Char :=
  ((l.dropWhile (pySpaceChars.contains ·)).reverse.dropWhile
    (pySpaceChars.contains ·)).reverse

/-- Model of Python str.strip on String. -/
def pyStrip (s : String) : String :=
  ⟨pyStripList s.data⟩

/-- Is the character in the class allowed by the regex [a-zA-Z0-9_] used in
data_processing.py for identifier sanitization. -/
def idChar (c : Char) : Bool :=
  c.isAlpha || c.isDigit || c == '_'

/-- Model of re.sub applied with the pattern that maps every character
outside [a-zA-Z0-9_] to an underscore. -/
def subNonIdChar (l : List Char) : List Char :=
  l.map (fun c => if idChar c then c else '_')

/-- Model of the substring test (the Python operator in on str) at the
character-list level. -/
def listHasInfix (needle : List Char) : List Char → Bool
  | [] => needle.isEmpty
  | c :: rest => needle.isPrefixOf (c :: rest) || listHasInfix needle rest

/-- Model of the Python substring test needle in hay. -/
def strHasSub (hay needle : String) : Bool :=
  listHasInfix needle.data hay.data

/-! ## anomaly.py: severity classification

AnomalyDetectionService.determine_severity reads a pandas row with
row.get(key, 0): a key that is absent defaults to 0, and a NaN value makes
every strict comparison false exactly as the 0 default does, so both are
modelled as none. The anomaly_flag comparison row.get("anomaly_flag") == -1
is false when the key is absent (None == -1 is false in Python). -/

/-- The fields of a scored row that determine_severity reads. Each KPI is
none when the column is absent from the row (or holds NaN). -/
structure Row where
  energy_kWh : Option ℚ
  energy_per_kg : Option ℚ
  yield_loss_pct : Option ℚ
  co2_per_kg : Option ℚ
  anomaly_flag : Option Int
deriving DecidableEq

/-- Embedding of AnomalyDetectionService.determine_severity
(anomaly.py lines 134-149). -/
def determine_severity (row : Row) : String :=
  -- critical thresholds (hard rules)
  let energy_rule := row.energy_kWh.getD 0 > 1500
  let efficiency_rule := row.energy_per_kg.getD 0 > 15
  let yield_rule := row.yield_loss_pct.getD 0 > 10
  let co2_rule := row.co2_per_kg.getD 0 > 6
  let is_model_anomaly := row.anomaly_flag = some (-1)
  if energy_rule ∨ efficiency_rule ∨ yield_rule ∨ co2_rule then "RED"
  else if is_model_anomaly then "AMBER"
  else "GREEN"

/-! ## data_processing.py: table-name sanitization -/

/-- Model of Python str.replace for the fixed pattern ".csv" with the empty
replacement: every (non-overlapping, left-to-right) occurrence is removed. -/
def stripCsvOcc : List Char → List Char
  | '.' :: 'c' :: 's' :: 'v' :: rest => stripCsvOcc rest
  | c :: rest => c :: stripCsvOcc rest
  | [] => []

/-- Model of re.sub collapsing every run of underscores to one underscore
(the pattern replacing one or more underscores by a single one). -/
def collapseUnd : List Char → List Char
  | [] => []
  | [c] => [c]
  | a :: b :: rest =>
    if a = '_' ∧ b = '_' then collapseUnd (b :: rest)
    else a :: collapseUnd (b :: rest)

/-- Model of Python str.strip applied with the underscore character. -/
def stripUnd (l : List Char) : List Char :=
  ((l.dropWhile (· = '_')).reverse.dropWhile (· = '_')).reverse

/-- Embedding of sanitize_table_name (data_processing.py lines 20-29).
The timestamp produced by datetime.now().strftime is impure, so it is an
explicit argument; the caller formats it with microsecond resolution
truncated to milliseconds. -/
def sanitize_table_name (filename : String) (timestamp : String) : String :=
  let name := stripCsvOcc filename.data
  let name := subNonIdChar name
  let name := collapseUnd name
  let name := stripUnd name
  let name :=
    if h : name ≠ [] then
      if (name.head h).isDigit then ('c' :: 's' :: 'v' :: '_' :: name) else name
    else name
  pyLower ⟨'c' :: 's' :: 'v' :: '_' :: (name ++ '_' :: timestamp.data)⟩

/-! ## data_processing.py: column sanitization (shared by create_dynamic_table,
create_unified_view and the row loader) -/

/-- Embedding of the column sanitization used identically at
data_processing.py lines 93-95, 157-159 and 322-324: map every character
outside [a-zA-Z0-9_] to an underscore, lower-case, and prefix with csv_
exactly when the original name lower-cases to id or upload_timestamp. -/
def sanitizeColumnName (col : String) : String :=
  let safe := pyLower ⟨subNonIdChar col.data⟩
  if pyLower col = "id" ∨ pyLower col = "upload_timestamp" then
    "csv_" ++ safe
  else safe

/-! ## data_processing.py: type inference -/

/-- The values dropped during cleaning in infer_column_type (the empty
string and the NULL spellings), together with the Python truthiness test. -/
def nullLikeVals : List String := ["", "NULL", "null", "None"]

/-- The boolean literal set of infer_column_type. -/
def boolLitVals : List String := ["true", "false", "yes", "no", "1", "0", "y", "n"]

/-- Greedy consumption of further digits of a Python digitpart, where a
single underscore is only allowed between two digits. -/
def consumeDigitsU : List Char → List Char
  | '_' :: c :: rest => if c.isDigit then consumeDigitsU rest else '_' :: c :: rest
  | c :: rest => if c.isDigit then consumeDigitsU rest else c :: rest
  | [] => []

/-- Parse a Python digitpart (digit, then digits with single interior
underscores); returns the remaining input on success. -/
def parseDigitPart : List Char → Option (List Char)
  | c :: rest => if c.isDigit then some (consumeDigitsU rest) else none
  | [] => none

/-- Parse the mantissa of a Python float literal: either digits with an
optional fraction, or a leading dot with mandatory fraction digits. -/
def parseMantissa (l : List Char) : Option (List Char) :=
  match l with
  | '.' :: rest => parseDigitPart rest
  | _ =>
    match parseDigitPart l with
    | none => none
    | some rest =>
      match rest with
      | '.' :: r2 =>
        match parseDigitPart r2 with
        | some r3 => some r3
        | none => some r2
      | _ => some rest

/-- Parse an optional exponent and require the end of input. -/
def parseExpTail (l : List Char) : Bool :=
  match l with
  | [] => true
  | e :: rest =>
    (e = 'e' ∨ e = 'E') &&
      (match rest with
       | '+' :: r => parseDigitPart r = some []
       | '-' :: r => parseDigitPart r = some []
       | r => parseDigitPart r = some [])

/-- Model of a successful CPython float(str) conversion: optional
whitespace and sign, then a float literal or one of the special spellings
inf, infinity, nan (case-insensitive). -/
def pyFloatParses (s : String) : Bool :=
  let l := pyStripList s.data
  let l := match l with
    | '+' :: r => r
    | '-' :: r => r
    | r => r
  let low := pyLowerList l
  if low = ['i', 'n', 'f'] ∨ low = "infinity".data ∨ low = ['n', 'a', 'n'] then
    true
  else
    match parseMantissa l with
    | none => false
    | some rest => parseExpTail rest

/-- The cleaned sample list of infer_column_type (data_processing.py
line 45): keep truthy values whose stripped form is not a NULL spelling,
stripped. -/
def cleanValues (sample_values : List String) : List String :=
  (sample_values.filter
    (fun v => v ≠ "" && !(nullLikeVals.contains (pyStrip v)))).map pyStrip

/-- Embedding of infer_column_type (data_processing.py lines 35-82).
The generic date parse performed by dateutil.parser.parse is an external
library call; it is abstracted as the oracle dateParses. The dead block
checking integers computes a value and discards it (pass) and is omitted. -/
def infer_column_type (dateParses : String → Bool)
    (sample_values : List String) (col_name : String) : String :=
  let col_lower := pyLower col_name
  if strHasSub col_lower "date" || strHasSub col_lower "time" then "TIMESTAMP"
  else if sample_values = [] then "TEXT"
  else
    let clean_values := cleanValues sample_values
    if clean_values = [] then "TEXT"
    else if clean_values.all (fun v => boolLitVals.contains (pyLower v)) then
      "BOOLEAN"
    else if clean_values.all pyFloatParses then "FLOAT"
    else if (clean_values.take 5).all dateParses then "TIMESTAMP"
    else "TEXT"

/-! ## data_processing.py: dynamic table creation -/

/-- Embedding of the SQL type chosen per inferred type in
create_dynamic_table (data_processing.py lines 97-108). -/
def sqlTypeFor (col_type : String) : String :=
  if col_type = "INTEGER" then "INTEGER"
  else if col_type = "FLOAT" then "DOUBLE PRECISION"
  else if col_type = "BOOLEAN" then "BOOLEAN"
  else if col_type = "TIMESTAMP" then "TIMESTAMP"
  else if col_type = "DATE" then "DATE"
  else "TEXT"

/-- One column declaration of the generated CREATE TABLE statement:
the declared column name and the rest of its SQL declaration. -/
structure ColDecl where
  name : String
  decl : String
deriving DecidableEq

/-- Embedding of the column list assembled by create_dynamic_table
(data_processing.py lines 88-113): the two system columns, then each CSV
column sanitized and typed in dictionary order, then the trailing
anomaly_alert column. The actual function also executes the CREATE TABLE
statement; the embedding returns the declaration list it is built from. -/
def create_dynamic_table_columns (columns : List (String × String)) : List ColDecl :=
  { name := "id", decl := "SERIAL PRIMARY KEY" } ::
  { name := "upload_timestamp", decl := "TIMESTAMP DEFAULT CURRENT_TIMESTAMP" } ::
  (columns.map (fun p => { name := sanitizeColumnName p.1, decl := sqlTypeFor p.2 }) ++
    [{ name := "anomaly_alert", decl := "TEXT DEFAULT NULL" }])

/-! ## data_processing.py: unified view -/

/-- The metadata the view builder reads for one registered table: the
original filename, the derived table name, and the keys of the columns_info
JSON map (the original CSV column names, in order). -/
structure TableMeta where
  filename : String
  table_name : String
  cols : List String
deriving DecidableEq

/-- The three implicit columns every dynamic table has
(data_processing.py line 163). -/
def implicitCols : List String := ["id", "upload_timestamp", "anomaly_alert"]

/-- The sanitized column set of one table as the view builder computes it
(data_processing.py lines 155-163): sanitized CSV columns plus the
implicit columns. -/
def tableSafeCols (t : TableMeta) : List String :=
  t.cols.map sanitizeColumnName ++ implicitCols

/-- The keyword list of create_unified_view used to decide which columns
are cast to DOUBLE PRECISION in the view (lines 200-205). -/
def numericPatterns : List String :=
  ["kwh", "energy", "weight", "temp", "temperature",
   "kg", "per_kg", "loss", "pct", "percent", "co2",
   "pressure", "humidity", "speed", "rate", "value",
   "count", "score", "factor"]

/-- Does the column name match the numeric-cast heuristic of
create_unified_view (line 207). -/
def isNumericViewCol (col : String) : Bool :=
  numericPatterns.any (fun p => strHasSub (pyLower col) p)

/-- One item of a SELECT branch of the unified view, for one global column:
either the column value (cast to DOUBLE PRECISION when the numeric
heuristic matches; the timestamp and plain branches of the source emit the
same selected column and are not distinguished here), or NULL aliased to
the column name when the table lacks the column. -/
inductive SelectItem where
  | cast (name : String)
  | plain (name : String)
  | nullCol (name : String)
deriving DecidableEq

/-- One SELECT branch of the unified view: the three literal provenance
columns followed by one item per global column. -/
structure ViewBranch where
  source_filename : String
  source_table : String
  source_upload_time : String
  items : List SelectItem
deriving DecidableEq

/-- The unified view definition: the sorted global column list and one
branch per registered table, combined by UNION ALL. -/
structure UnifiedView where
  columns : List String
  branches : List ViewBranch
deriving DecidableEq

/-- The item create_unified_view emits in the branch of a table with
sanitized column set tcols for the global column c (lines 193-219). -/
def branchItem (tcols : List String) (c : String) : SelectItem :=
  if c ∈ tcols then
    if isNumericViewCol c then SelectItem.cast c else SelectItem.plain c
  else SelectItem.nullCol c

/-- Embedding of create_unified_view (data_processing.py lines 132-250).
The database reads and writes are abstracted away: the input is the list of
all registered TableMetadata rows and the output the view definition, or
none when the function returns without creating a view. The upload
timestamp rendered into source_upload_time is carried as a string field of
the metadata in the source; it is omitted here (set to the table name) as no
claim concerns it. JSON parse failures of columns_info are not modelled:
every metadata row is assumed well formed. -/
def create_unified_view (tables : List TableMeta) : Option UnifiedView :=
  if tables = [] then none
  else
    let all_columns := (tables.map tableSafeCols).flatten.dedup
    if all_columns = [] then none
    else
      let sorted_columns := all_columns.insertionSort (· ≤ ·)
      let branches := tables.map (fun t =>
        { source_filename := t.filename
          source_table := t.table_name
          source_upload_time := t.table_name
          items := sorted_columns.map (branchItem (tableSafeCols t)) : ViewBranch })
      if branches = [] then none
      else some { columns := sorted_columns, branches := branches }

/-! ## feature_engineering.py: column-level model

The claims about FeatureEngineer only concern which columns the returned
dataframe has, so the dataframe is modelled as its list of column names in
order. Pandas column assignment df[c] = v appends a new column when c is
absent and overwrites in place when present; renames substitute names
pointwise. Row counts, values and the row reordering done by sort_values do
not change the column list and are not modelled. Each stage is embedded on
its non-exceptional path (the except fallbacks of the source are dead in a
pure setting). -/

/-- Model of the pandas column assignment df[c] = v at the column level. -/
def addCol (df : List String) (c : String) : List String :=
  if c ∈ df then df else df ++ [c]

/-- Model of df.rename(columns=(old: new)) guarded by the presence test the
source performs; pandas rename substitutes the name pointwise. -/
def renameCol (df : List String) (old new : String) : List String :=
  if old ∈ df then df.map (fun c => if c = old then new else c) else df

/-- The column_mapping dictionary of calculate_basic_features
(feature_engineering.py lines 41-53), in iteration order. -/
def column_mapping : List (String × String) :=
  [("Energy Consumption (kWh)", "Energy_kWh"),
   ("Energy_Consumption__kWh_", "Energy_kWh"),
   ("energy_consumption__kwh_", "Energy_kWh"),
   ("OutputWeight_kg", "OutputWeight_kg"),
   ("outputweight_kg", "OutputWeight_kg"),
   ("InputWeight_kg", "InputWeight_kg"),
   ("inputweight_kg", "InputWeight_kg"),
   ("RoomTemp_C", "RoomTemp_C"),
   ("roomtemp_c", "RoomTemp_C"),
   ("RoomTemperature_C", "RoomTemp_C"),
   ("roomtemperature_c", "RoomTemp_C")]

/-- The rename loop of calculate_basic_features (lines 55-57). -/
def applyRenames (df : List String) : List String :=
  column_mapping.foldl (fun d p => renameCol d p.1 p.2) df

/-- Step 1 of calculate_basic_features (lines 59-61): energy per kg. -/
def basicStep1 (df : List String) : List String :=
  if "Energy_kWh" ∈ df ∧ "OutputWeight_kg" ∈ df then
    addCol df "Energy_per_kg"
  else df

/-- Step 2 of calculate_basic_features (lines 63-67): yield loss
percentage. -/
def basicStep2 (df : List String) : List String :=
  if "InputWeight_kg" ∈ df ∧ "OutputWeight_kg" ∈ df then
    addCol df "Yield_loss_pct"
  else df

/-- Step 3 of calculate_basic_features (lines 69-78): CO2 per kg; the
data-driven branch and the default-factor branch assign the same column. -/
def basicStep3 (df : List String) : List String :=
  if "Energy_kWh" ∈ df ∧ "OutputWeight_kg" ∈ df then
    (if "kg_co2_per_kwh" ∈ df then addCol df "CO2_per_kg"
     else addCol df "CO2_per_kg")
  else df

/-- Step 4 of calculate_basic_features (lines 80-82): the energy times
temperature interaction. -/
def basicStep4 (df : List String) : List String :=
  if "Energy_kWh" ∈ df ∧ "RoomTemp_C" ∈ df then
    addCol df "Energy_x_Temp"
  else df

/-- Embedding of FeatureEngineer.calculate_basic_features
(feature_engineering.py lines 28-84) at the column level: the rename loop
followed by the four conditional assignments. Each derived column is added
only under the same presence conditions the source tests; nothing is added
when a source column is absent. -/
def calculate_basic_features (df0 : List String) : List String :=
  basicStep4 (basicStep3 (basicStep2 (basicStep1 (applyRenames df0))))

/-- The timestamp column priority list of calculate_temporal_features
(line 101). -/
def timestampCandidates : List String :=
  ["upload_timestamp", "timestamp", "BatchDate", "date", "Date"]

/-- Embedding of FeatureEngineer.calculate_temporal_features (lines 86-144)
at the column level: whether or not a timestamp column is found, the three
temporal columns are assigned (from data when found, as the fixed defaults
otherwise); the column list gains the same three names either way. -/
def calculate_temporal_features (df : List String) : List String :=
  match timestampCandidates.find? (fun c => df.contains c) with
  | some _ =>
    addCol (addCol (addCol df "Batch_Hour") "Batch_DayOfWeek") "Time_Since_Last_Batch"
  | none =>
    addCol (addCol (addCol df "Batch_Hour") "Batch_DayOfWeek") "Time_Since_Last_Batch"

/-- Embedding of FeatureEngineer.calculate_rolling_features (lines 146-185)
at the column level: the two energy rolling columns are assigned only when
Energy_kWh is present, the yield rolling mean only when Yield_loss_pct is
present. -/
def calculate_rolling_features (df : List String) : List String :=
  let df := if "Energy_kWh" ∈ df then
      addCol (addCol df "Energy_kWh_Rolling_Mean") "Energy_kWh_Rolling_Std"
    else df
  let df := if "Yield_loss_pct" ∈ df then
      addCol df "Yield_loss_pct_Rolling_Mean"
    else df
  df

/-- Embedding of FeatureEngineer.calculate_equipment_features
(lines 187-237) at the column level: all three equipment columns are
assigned on both sides of each presence test (per-machine statistics when
the machine column exists, constants otherwise). -/
def calculate_equipment_features (df : List String) : List String :=
  -- the source tests MachineName, ProductionStage, and MachineName plus a
  -- timestamp column, but assigns the same column name on both sides of
  -- each test (data-driven values when present, constants otherwise), so
  -- at the column level each test reduces to an unconditional assignment
  let df1 := addCol df "Machine_Batch_Count"
  let df2 := addCol df1 "ProductionStage_Encoded"
  let df3 := addCol df2 "Machine_Utilization"
  df3

/-- Embedding of FeatureEngineer.engineer_features (lines 239-258) at the
column level: the four stages in order; the final replacement of infinities
by NaN does not change the column list. -/
def engineer_features (df : List String) : List String :=
  calculate_equipment_features
    (calculate_rolling_features
      (calculate_temporal_features
        (calculate_basic_features df)))

/-- The 15 feature names of FeatureEngineer.get_feature_names
(lines 260-283). -/
def feature_names : List String :=
  ["Energy_kWh", "Energy_per_kg", "Yield_loss_pct", "RoomTemp_C",
   "CO2_per_kg", "Energy_x_Temp",
   "Batch_Hour", "Batch_DayOfWeek", "Time_Since_Last_Batch",
   "Energy_kWh_Rolling_Mean", "Energy_kWh_Rolling_Std",
   "Yield_loss_pct_Rolling_Mean",
   "Machine_Batch_Count", "ProductionStage_Encoded", "Machine_Utilization"]

/-! ## anomaly.py: detect_and_update

The pipeline is modelled as a pure function. The table read returns the
list of rows; after calculate_features each row carries the six required
feature values, where none models a NaN cell (the source replaces
infinities by NaN and np.isnan drives the validity mask). The Isolation
Forest model is abstracted as an oracle from a row to its predicted flag
(-1 outlier, 1 normal); the scaler only transforms the feature matrix
handed to that oracle and is absorbed into it. The column check runs on
df_calc, whose column list is the engineer_features model applied to the
table columns. The two db.commit() calls delimit two failure domains; a
possible failure of the second (history) commit is modelled by the
historyWriteFails flag, in which case the source rolls the history insert
back and keeps the committed alert update. -/

/-- One row of the scored table: its id surrogate key and the six required
feature values after feature calculation (none models NaN). -/
structure ScoredRow where
  id : Nat
  energy_kWh : Option ℚ
  energy_per_kg : Option ℚ
  yield_loss_pct : Option ℚ
  roomTemp_C : Option ℚ
  co2_per_kg : Option ℚ
  energy_x_temp : Option ℚ
deriving DecidableEq

/-- The required feature list of detect_and_update (anomaly.py
lines 178-181). -/
def required_features : List String :=
  ["Energy_kWh", "Energy_per_kg", "Yield_loss_pct",
   "RoomTemp_C", "CO2_per_kg", "Energy_x_Temp"]

/-- The NaN validity mask of one row (anomaly.py line 194): true when none
of the six required features is NaN. -/
def validRow (r : ScoredRow) : Bool :=
  r.energy_kWh.isSome && r.energy_per_kg.isSome && r.yield_loss_pct.isSome &&
    r.roomTemp_C.isSome && r.co2_per_kg.isSome && r.energy_x_temp.isSome

/-- The severity the pipeline assigns to a valid row: determine_severity on
the row extended with the anomaly_flag predicted by the model. -/
def rowSeverity (predict : ScoredRow → Int) (r : ScoredRow) : String :=
  determine_severity
    { energy_kWh := r.energy_kWh
      energy_per_kg := r.energy_per_kg
      yield_loss_pct := r.yield_loss_pct
      co2_per_kg := r.co2_per_kg
      anomaly_flag := some (predict r) }

/-- The id list collected for one severity bucket (anomaly.py lines
226-232): ids of valid rows with that severity, skipping falsy (zero) ids. -/
def severityIds (predict : ScoredRow → Int) (valid : List ScoredRow)
    (sev : String) : List Nat :=
  (valid.filter (fun r => rowSeverity predict r == sev && r.id != 0)).map
    (fun r => r.id)

/-- The alert-column writes of the batch update (lines 234-241), as
(id, severity) pairs in the order the three UPDATE statements emit them. -/
def alertPairs (predict : ScoredRow → Int) (valid : List ScoredRow) :
    List (Nat × String) :=
  (severityIds predict valid "RED").map (fun i => (i, "RED")) ++
  (severityIds predict valid "AMBER").map (fun i => (i, "AMBER")) ++
  (severityIds predict valid "GREEN").map (fun i => (i, "GREEN"))

/-- One appended history row (an AnomalyDetection record): the valid source
row it was built from and the severity stored with it; the KPI snapshot
fields of the record are projections of the source row. -/
structure HistoryRec where
  source : ScoredRow
  severity : String
deriving DecidableEq

/-- The history rows appended by the persistence block (lines 244-277): one
record per valid row whose severity is RED or AMBER, in row order. -/
def historyRecords (predict : ScoredRow → Int) (valid : List ScoredRow) :
    List HistoryRec :=
  (valid.filter
    (fun r => rowSeverity predict r == "RED" || rowSeverity predict r == "AMBER")).map
    (fun r => { source := r, severity := rowSeverity predict r })

/-- The database state touched by detect_and_update: the committed
anomaly_alert writes and the committed history rows, both as append-only
logs. -/
structure DbState where
  alerts : List (Nat × String)
  history : List HistoryRec
deriving DecidableEq

/-- The environment of one detect_and_update call: whether the model loaded
at service construction, the model oracle, and whether the history commit
will fail. -/
structure DetectEnv where
  modelLoaded : Bool
  predict : ScoredRow → Int
  historyWriteFails : Bool

/-- The status dictionary detect_and_update returns. -/
structure DetectResult where
  status : String
  reason : String := ""
  missing : List String := []
  anomalies : Nat := 0
deriving DecidableEq

/-- The missing-columns list computed at anomaly.py line 184: the required
features absent from the columns of df_calc, which are the table columns
after enhanced feature engineering. -/
def missingFeatures (tableCols : List String) : List String :=
  required_features.filter (fun c => !((engineer_features tableCols).contains c))

/-- Embedding of AnomalyDetectionService.detect_and_update (anomaly.py
lines 151-296) over the abstractions above. Returns the database state
after the call together with the status dictionary. -/
def detect_and_update (env : DetectEnv) (tableCols : List String)
    (rows : List ScoredRow) (db : DbState) : DbState × DetectResult :=
  if env.modelLoaded = false then
    (db, { status := "skipped", reason := "model_not_loaded" })
  else if rows = [] then
    (db, { status := "skipped", reason := "no_data" })
  else if missingFeatures tableCols ≠ [] then
    (db, { status := "skipped", reason := "missing_columns",
           missing := missingFeatures tableCols })
  else
    let valid := rows.filter validRow
    if valid = [] then
      (db, { status := "skipped", reason := "no_valid_data_rows" })
    else
      -- first commit: the three per-severity UPDATE statements
      let db1 : DbState := { db with alerts := db.alerts ++ alertPairs env.predict valid }
      -- second, independent commit: the history insert; on failure the
      -- source rolls back only this insert
      let db2 : DbState :=
        if env.historyWriteFails then db1
        else { db1 with history := db1.history ++ historyRecords env.predict valid }
      (db2,
       { status := "success",
         anomalies := (severityIds env.predict valid "RED").length +
           (severityIds env.predict valid "AMBER").length })

/-! ## Claim C1: severity classification rules -/

/-- C1: for every scored row, determine_severity returns RED if any hard
rule holds (Energy_kWh over 1500, Energy_per_kg over 15, Yield_loss_pct
over 10, CO2_per_kg over 6.0); otherwise AMBER if the model flagged the row
as an outlier (anomaly_flag = -1); otherwise GREEN. A row with
Energy_kWh = 1600 and the other KPIs at their thresholds is RED; a row with
all KPIs at the thresholds and outlier flag is AMBER; with flag = normal
(1) it is GREEN. -/
theorem claim_C1 :
    (∀ row : Row,
      (row.energy_kWh.getD 0 > 1500 ∨ row.energy_per_kg.getD 0 > 15 ∨
          row.yield_loss_pct.getD 0 > 10 ∨ row.co2_per_kg.getD 0 > 6 →
        determine_severity row = "RED") ∧
      (¬(row.energy_kWh.getD 0 > 1500 ∨ row.energy_per_kg.getD 0 > 15 ∨
          row.yield_loss_pct.getD 0 > 10 ∨ row.co2_per_kg.getD 0 > 6) →
        row.anomaly_flag = some (-1) →
        determine_severity row = "AMBER") ∧
      (¬(row.energy_kWh.getD 0 > 1500 ∨ row.energy_per_kg.getD 0 > 15 ∨
          row.yield_loss_pct.getD 0 > 10 ∨ row.co2_per_kg.getD 0 > 6) →
        row.anomaly_flag ≠ some (-1) →
        determine_severity row = "GREEN")) ∧
    determine_severity
      { energy_kWh := some 1600, energy_per_kg := some 15,
        yield_loss_pct := some 10, co2_per_kg := some 6,
        anomaly_flag := some 1 } = "RED" ∧
    determine_severity
      { energy_kWh := some 1500, energy_per_kg := some 15,
        yield_loss_pct := some 10, co2_per_kg := some 6,
        anomaly_flag := some (-1) } = "AMBER" ∧
    determine_severity
      { energy_kWh := some 1500, energy_per_kg := some 15,
        yield_loss_pct := some 10, co2_per_kg := some 6,
        anomaly_flag := some 1 } = "GREEN" := by
  refine ⟨fun row => ⟨?_, ?_, ?_⟩, ?_, ?_, ?_⟩
  · intro h
    simp only [determine_severity]
    rw [if_pos h]
  · intro hn hf
    simp only [determine_severity]
    rw [if_neg hn, if_pos hf]
  · intro hn hf
    simp only [determine_severity]
    rw [if_neg hn, if_neg hf]
  · simp only [determine_severity]
    rw [if_pos (by norm_num)]
  · simp only [determine_severity]
    rw [if_neg (by norm_num)]
    simp
  · simp only [determine_severity]
    rw [if_neg (by norm_num), if_neg (by simp)]

/-- Witness for C1 at a concrete row: Energy_kWh = 1600, the other KPIs at
or below their thresholds and a normal model flag, classified RED by the
energy hard rule. -/
theorem claim_C1_witness :
    determine_severity
      { energy_kWh := some 1600, energy_per_kg := some 3,
        yield_loss_pct := some 2, co2_per_kg := some 1,
        anomaly_flag := some 1 } = "RED" :=
  (claim_C1.1
    { energy_kWh := some 1600, energy_per_kg := some 3,
      yield_loss_pct := some 2, co2_per_kg := some 1,
      anomaly_flag := some 1 }).1 (by norm_num)

/-! ## Claim C10: absent KPIs default to 0 -/

/-- C10: determine_severity treats a KPI absent from the row as the value 0
in the hard-threshold comparisons (the row classifies exactly as the row
with every absent KPI replaced by 0); therefore an absent KPI can never by
itself trigger RED, and a row missing every KPI that is not model-flagged
as an outlier is GREEN (and AMBER when it is flagged). -/
theorem claim_C10 : ∀ row : Row,
    determine_severity row = determine_severity
      { energy_kWh := some (row.energy_kWh.getD 0),
        energy_per_kg := some (row.energy_per_kg.getD 0),
        yield_loss_pct := some (row.yield_loss_pct.getD 0),
        co2_per_kg := some (row.co2_per_kg.getD 0),
        anomaly_flag := row.anomaly_flag } ∧
    (row.energy_kWh = none → row.energy_per_kg = none →
      row.yield_loss_pct = none → row.co2_per_kg = none →
      determine_severity row ≠ "RED" ∧
      (row.anomaly_flag ≠ some (-1) → determine_severity row = "GREEN") ∧
      (row.anomaly_flag = some (-1) → determine_severity row = "AMBER")) := by
  intro row
  constructor
  · simp [determine_severity]
  · intro h1 h2 h3 h4
    refine ⟨?_, ?_, ?_⟩
    · simp only [determine_severity, h1, h2, h3, h4]
      rw [if_neg (by norm_num)]
      split <;> simp
    · intro hf
      simp [determine_severity, h1, h2, h3, h4, hf]
    · intro hf
      simp [determine_severity, h1, h2, h3, h4, hf]

/-- Witness for C10 at a concrete row missing every KPI, with a normal
model flag: the row is GREEN, not RED. -/
theorem claim_C10_witness :
    determine_severity
      { energy_kWh := none, energy_per_kg := none, yield_loss_pct := none,
        co2_per_kg := none, anomaly_flag := some 1 } = "GREEN" :=
  ((claim_C10
    { energy_kWh := none, energy_per_kg := none, yield_loss_pct := none,
      co2_per_kg := none, anomaly_flag := some 1 }).2
    rfl rfl rfl rfl).2.1 (by simp)

/-! ## Claim C2: feature columns produced by engineer_features -/

theorem mem_addCol_self (df : List String) (c : String) : c ∈ addCol df c := by
  unfold addCol
  split
  · assumption
  · exact List.mem_append_right _ (List.mem_singleton.mpr rfl)

theorem mem_addCol (df : List String) (c d : String) (h : c ∈ df) :
    c ∈ addCol df d := by
  unfold addCol
  split
  · exact h
  · exact List.mem_append_left _ h

theorem mem_renameCol (df : List String) (old new c : String) (h : c ∈ df)
    (hc : c ≠ old ∨ new = c) : c ∈ renameCol df old new := by
  unfold renameCol
  split
  · refine List.mem_map.mpr ⟨c, h, ?_⟩
    rcases hc with hne | heq
    · rw [if_neg hne]
    · by_cases hco : c = old
      · rw [if_pos hco, heq]
      · rw [if_neg hco]
  · exact h

theorem mem_rename_foldl (m : List (String × String)) (df : List String)
    (c : String) (hall : ∀ p ∈ m, c ≠ p.1 ∨ p.2 = c) (h : c ∈ df) :
    c ∈ m.foldl (fun d p => renameCol d p.1 p.2) df := by
  induction m generalizing df with
  | nil => exact h
  | cons p m ih =>
    exact ih _ (fun q hq => hall q (List.mem_cons_of_mem p hq))
      (mem_renameCol df p.1 p.2 c h (hall p (List.mem_cons_self p m)))

theorem mem_applyRenames (df : List String) (c : String)
    (hall : ∀ p ∈ column_mapping, c ≠ p.1 ∨ p.2 = c) (h : c ∈ df) :
    c ∈ applyRenames df :=
  mem_rename_foldl column_mapping df c hall h

/-- Membership survives one conditional addCol step. -/
theorem mem_ite_addCol (P : Prop) [Decidable P] (df : List String)
    (d c : String) (h : c ∈ df) : c ∈ (if P then addCol df d else df) := by
  split
  · exact mem_addCol _ c _ h
  · exact h

/-- Membership survives one conditional double addCol step. -/
theorem mem_ite_addCol2 (P : Prop) [Decidable P] (df : List String)
    (d e c : String) (h : c ∈ df) :
    c ∈ (if P then addCol (addCol df d) e else df) := by
  split
  · exact mem_addCol _ c _ (mem_addCol _ c _ h)
  · exact h

/-- Membership survives the CO2 step, whose two inner branches both add the
same column. -/
theorem mem_ite_ite_addCol (P Q : Prop) [Decidable P] [Decidable Q]
    (df : List String) (d c : String) (h : c ∈ df) :
    c ∈ (if P then (if Q then addCol df d else addCol df d) else df) := by
  split
  · split
    · exact mem_addCol _ c _ h
    · exact mem_addCol _ c _ h
  · exact h

theorem mem_basicStep1 (df : List String) (c : String) (h : c ∈ df) :
    c ∈ basicStep1 df := by
  unfold basicStep1
  exact mem_ite_addCol _ _ _ _ h

theorem mem_basicStep2 (df : List String) (c : String) (h : c ∈ df) :
    c ∈ basicStep2 df := by
  unfold basicStep2
  exact mem_ite_addCol _ _ _ _ h

theorem mem_basicStep3 (df : List String) (c : String) (h : c ∈ df) :
    c ∈ basicStep3 df := by
  unfold basicStep3
  exact mem_ite_ite_addCol _ _ _ _ _ h

theorem mem_basicStep4 (df : List String) (c : String) (h : c ∈ df) :
    c ∈ basicStep4 df := by
  unfold basicStep4
  exact mem_ite_addCol _ _ _ _ h

/-- Membership is preserved by every addCol-only step of
calculate_basic_features. -/
theorem mem_basic_mono (df : List String) (c : String)
    (hall : ∀ p ∈ column_mapping, c ≠ p.1 ∨ p.2 = c) (h : c ∈ df) :
    c ∈ calculate_basic_features df := by
  unfold calculate_basic_features
  exact mem_basicStep4 _ _ (mem_basicStep3 _ _ (mem_basicStep2 _ _
    (mem_basicStep1 _ _ (mem_applyRenames df c hall h))))

theorem mem_temporal_mono (df : List String) (c : String) (h : c ∈ df) :
    c ∈ calculate_temporal_features df := by
  unfold calculate_temporal_features
  cases timestampCandidates.find? (fun d => df.contains d) <;>
    exact mem_addCol _ c _ (mem_addCol _ c _ (mem_addCol _ c _ h))

theorem mem_rolling_mono (df : List String) (c : String) (h : c ∈ df) :
    c ∈ calculate_rolling_features df := by
  simp only [calculate_rolling_features]
  exact mem_ite_addCol _ _ _ _ (mem_ite_addCol2 _ _ _ _ _ h)

theorem mem_equipment_mono (df : List String) (c : String) (h : c ∈ df) :
    c ∈ calculate_equipment_features df := by
  simp only [calculate_equipment_features]
  exact mem_addCol _ c _ (mem_addCol _ c _ (mem_addCol _ c _ h))

/-- The three temporal columns are present after
calculate_temporal_features, whether or not a timestamp column exists. -/
theorem temporal_adds (df : List String) :
    "Batch_Hour" ∈ calculate_temporal_features df ∧
    "Batch_DayOfWeek" ∈ calculate_temporal_features df ∧
    "Time_Since_Last_Batch" ∈ calculate_temporal_features df := by
  unfold calculate_temporal_features
  cases timestampCandidates.find? (fun d => df.contains d) <;>
    exact ⟨mem_addCol _ _ _ (mem_addCol _ _ _ (mem_addCol_self _ _)),
      mem_addCol _ _ _ (mem_addCol_self _ _), mem_addCol_self _ _⟩

/-- The three equipment columns are present after
calculate_equipment_features. -/
theorem equipment_adds (df : List String) :
    "Machine_Batch_Count" ∈ calculate_equipment_features df ∧
    "ProductionStage_Encoded" ∈ calculate_equipment_features df ∧
    "Machine_Utilization" ∈ calculate_equipment_features df := by
  simp only [calculate_equipment_features]
  exact ⟨mem_addCol _ _ _ (mem_addCol _ _ _ (mem_addCol_self _ _)),
    mem_addCol _ _ _ (mem_addCol_self _ _), mem_addCol_self _ _⟩

/-- The six basic feature columns are present after
calculate_basic_features when the four raw source columns are present in
the input dataframe. -/
theorem basic_adds (df : List String)
    (hE0 : "Energy_kWh" ∈ df) (hO0 : "OutputWeight_kg" ∈ df)
    (hI0 : "InputWeight_kg" ∈ df) (hR0 : "RoomTemp_C" ∈ df) :
    "Energy_kWh" ∈ calculate_basic_features df ∧
    "RoomTemp_C" ∈ calculate_basic_features df ∧
    "Energy_per_kg" ∈ calculate_basic_features df ∧
    "Yield_loss_pct" ∈ calculate_basic_features df ∧
    "CO2_per_kg" ∈ calculate_basic_features df ∧
    "Energy_x_Temp" ∈ calculate_basic_features df := by
  have hE := mem_applyRenames df "Energy_kWh" (by decide) hE0
  have hO := mem_applyRenames df "OutputWeight_kg" (by decide) hO0
  have hI := mem_applyRenames df "InputWeight_kg" (by decide) hI0
  have hR := mem_applyRenames df "RoomTemp_C" (by decide) hR0
  have hE1 := mem_basicStep1 _ _ hE
  have hO1 := mem_basicStep1 _ _ hO
  have hI1 := mem_basicStep1 _ _ hI
  have hR1 := mem_basicStep1 _ _ hR
  have hP1 : "Energy_per_kg" ∈ basicStep1 (applyRenames df) := by
    unfold basicStep1
    rw [if_pos ⟨hE, hO⟩]
    exact mem_addCol_self _ _
  have hE2 := mem_basicStep2 _ _ hE1
  have hO2 := mem_basicStep2 _ _ hO1
  have hR2 := mem_basicStep2 _ _ hR1
  have hP2 := mem_basicStep2 _ _ hP1
  have hY2 : "Yield_loss_pct" ∈ basicStep2 (basicStep1 (applyRenames df)) := by
    unfold basicStep2
    rw [if_pos ⟨hI1, hO1⟩]
    exact mem_addCol_self _ _
  have hE3 := mem_basicStep3 _ _ hE2
  have hR3 := mem_basicStep3 _ _ hR2
  have hP3 := mem_basicStep3 _ _ hP2
  have hY3 := mem_basicStep3 _ _ hY2
  have hC3 : "CO2_per_kg" ∈
      basicStep3 (basicStep2 (basicStep1 (applyRenames df))) := by
    unfold basicStep3
    rw [if_pos ⟨hE2, hO2⟩, ite_self]
    exact mem_addCol_self _ _
  have hX4 : "Energy_x_Temp" ∈
      basicStep4 (basicStep3 (basicStep2 (basicStep1 (applyRenames df)))) := by
    unfold basicStep4
    rw [if_pos ⟨hE3, hR3⟩]
    exact mem_addCol_self _ _
  exact ⟨mem_basicStep4 _ _ hE3, mem_basicStep4 _ _ hR3, mem_basicStep4 _ _ hP3,
    mem_basicStep4 _ _ hY3, mem_basicStep4 _ _ hC3, hX4⟩

/-- The three energy and yield rolling columns are present after
calculate_rolling_features when their source columns are present. -/
theorem rolling_adds (df : List String)
    (hE : "Energy_kWh" ∈ df) (hY : "Yield_loss_pct" ∈ df) :
    "Energy_kWh_Rolling_Mean" ∈ calculate_rolling_features df ∧
    "Energy_kWh_Rolling_Std" ∈ calculate_rolling_features df ∧
    "Yield_loss_pct_Rolling_Mean" ∈ calculate_rolling_features df := by
  simp only [calculate_rolling_features]
  rw [if_pos hE]
  have hM := mem_addCol _ "Energy_kWh_Rolling_Mean" "Energy_kWh_Rolling_Std"
    (mem_addCol_self df "Energy_kWh_Rolling_Mean")
  have hS := mem_addCol_self (addCol df "Energy_kWh_Rolling_Mean")
    "Energy_kWh_Rolling_Std"
  have hY1 := mem_addCol _ "Yield_loss_pct" "Energy_kWh_Rolling_Std"
    (mem_addCol _ "Yield_loss_pct" "Energy_kWh_Rolling_Mean" hY)
  rw [if_pos hY1]
  exact ⟨mem_addCol _ _ _ hM, mem_addCol _ _ _ hS, mem_addCol_self _ _⟩

/-- C2 (amended): engineer_features always returns the three temporal and
three equipment feature columns (their stages substitute constant defaults
when inputs are absent), but the six basic and three rolling feature
columns are produced only when their source columns are present: when the
input dataframe has Energy_kWh, OutputWeight_kg, InputWeight_kg and
RoomTemp_C, the returned dataframe contains all 15 named feature columns. -/
theorem claim_C2 : ∀ df : List String,
    ("Batch_Hour" ∈ engineer_features df ∧
     "Batch_DayOfWeek" ∈ engineer_features df ∧
     "Time_Since_Last_Batch" ∈ engineer_features df ∧
     "Machine_Batch_Count" ∈ engineer_features df ∧
     "ProductionStage_Encoded" ∈ engineer_features df ∧
     "Machine_Utilization" ∈ engineer_features df) ∧
    ("Energy_kWh" ∈ df → "OutputWeight_kg" ∈ df → "InputWeight_kg" ∈ df →
      "RoomTemp_C" ∈ df → ∀ c ∈ feature_names, c ∈ engineer_features df) := by
  intro df
  constructor
  · obtain ⟨t1, t2, t3⟩ := temporal_adds (calculate_basic_features df)
    obtain ⟨q1, q2, q3⟩ := equipment_adds
      (calculate_rolling_features (calculate_temporal_features (calculate_basic_features df)))
    exact ⟨mem_equipment_mono _ _ (mem_rolling_mono _ _ t1),
      mem_equipment_mono _ _ (mem_rolling_mono _ _ t2),
      mem_equipment_mono _ _ (mem_rolling_mono _ _ t3), q1, q2, q3⟩
  · intro hE hO hI hR c hc
    obtain ⟨b1, b2, b3, b4, b5, b6⟩ := basic_adds df hE hO hI hR
    obtain ⟨t1, t2, t3⟩ := temporal_adds (calculate_basic_features df)
    obtain ⟨r1, r2, r3⟩ := rolling_adds
      (calculate_temporal_features (calculate_basic_features df))
      (mem_temporal_mono _ _ b1) (mem_temporal_mono _ _ b4)
    obtain ⟨q1, q2, q3⟩ := equipment_adds
      (calculate_rolling_features (calculate_temporal_features (calculate_basic_features df)))
    fin_cases hc
    · exact mem_equipment_mono _ _ (mem_rolling_mono _ _ (mem_temporal_mono _ _ b1))
    · exact mem_equipment_mono _ _ (mem_rolling_mono _ _ (mem_temporal_mono _ _ b3))
    · exact mem_equipment_mono _ _ (mem_rolling_mono _ _ (mem_temporal_mono _ _ b4))
    · exact mem_equipment_mono _ _ (mem_rolling_mono _ _ (mem_temporal_mono _ _ b2))
    · exact mem_equipment_mono _ _ (mem_rolling_mono _ _ (mem_temporal_mono _ _ b5))
    · exact mem_equipment_mono _ _ (mem_rolling_mono _ _ (mem_temporal_mono _ _ b6))
    · exact mem_equipment_mono _ _ (mem_rolling_mono _ _ t1)
    · exact mem_equipment_mono _ _ (mem_rolling_mono _ _ t2)
    · exact mem_equipment_mono _ _ (mem_rolling_mono _ _ t3)
    · exact mem_equipment_mono _ _ r1
    · exact mem_equipment_mono _ _ r2
    · exact mem_equipment_mono _ _ r3
    · exact q1
    · exact q2
    · exact q3

/-- Counterexample to C2 as stated: for the input dataframe with the single
column BatchID, engineer_features returns only that column plus the six
temporal and equipment features; nine of the 15 named feature columns,
among them Energy_kWh, Energy_per_kg and Energy_kWh_Rolling_Mean, are
absent, so the full feature count is not preserved when source columns are
missing. -/
theorem claim_C2_cex :
    engineer_features ["BatchID"] =
      ["BatchID", "Batch_Hour", "Batch_DayOfWeek", "Time_Since_Last_Batch",
       "Machine_Batch_Count", "ProductionStage_Encoded", "Machine_Utilization"] ∧
    "Energy_kWh" ∉ engineer_features ["BatchID"] ∧
    "Energy_per_kg" ∉ engineer_features ["BatchID"] ∧
    "Energy_kWh_Rolling_Mean" ∉ engineer_features ["BatchID"] ∧
    ¬(∀ c ∈ feature_names, c ∈ engineer_features ["BatchID"]) := by
  refine ⟨by decide, by decide, by decide, by decide, ?_⟩
  intro h
  exact absurd (h "Energy_kWh" (by decide)) (by decide)

/-- Witness for C2 at a concrete dataframe containing the four raw source
columns: all 15 features are produced. -/
theorem claim_C2_witness :
    "Energy_x_Temp" ∈ engineer_features
      ["Energy_kWh", "OutputWeight_kg", "InputWeight_kg", "RoomTemp_C"] :=
  (claim_C2 ["Energy_kWh", "OutputWeight_kg", "InputWeight_kg", "RoomTemp_C"]).2
    (by decide) (by decide) (by decide) (by decide) "Energy_x_Temp" (by decide)

/-! ## Claim C4: type inference policy -/

/-- C4: type inference is a deterministic pure function of the column name
and sample values (immediate here, since the embedding is a function)
following the ordered first-match policy: a name containing date or time
(case-insensitive) gives TIMESTAMP regardless of content; an empty cleaned
remainder gives TEXT; all-boolean literals give BOOLEAN; otherwise
all-float-parsable values give FLOAT; otherwise TIMESTAMP when the first 5
cleaned values date-parse, else TEXT; no input ever infers INTEGER; and the
four concrete examples of the specification hold for every date oracle
(the Notes example needs only that the oracle rejects the literal ok). -/
theorem claim_C4 :
    (∀ d vals name,
      (strHasSub (pyLower name) "date" || strHasSub (pyLower name) "time") = true →
      infer_column_type d vals name = "TIMESTAMP") ∧
    (∀ d vals name, infer_column_type d vals name ≠ "INTEGER") ∧
    (∀ d vals name,
      (strHasSub (pyLower name) "date" || strHasSub (pyLower name) "time") = false →
      cleanValues vals = [] →
      infer_column_type d vals name = "TEXT") ∧
    (∀ d vals name,
      (strHasSub (pyLower name) "date" || strHasSub (pyLower name) "time") = false →
      vals ≠ [] → cleanValues vals ≠ [] →
      (cleanValues vals).all (fun v => boolLitVals.contains (pyLower v)) = true →
      infer_column_type d vals name = "BOOLEAN") ∧
    (∀ d vals name,
      (strHasSub (pyLower name) "date" || strHasSub (pyLower name) "time") = false →
      vals ≠ [] → cleanValues vals ≠ [] →
      (cleanValues vals).all (fun v => boolLitVals.contains (pyLower v)) = false →
      (cleanValues vals).all pyFloatParses = true →
      infer_column_type d vals name = "FLOAT") ∧
    (∀ d vals name,
      (strHasSub (pyLower name) "date" || strHasSub (pyLower name) "time") = false →
      vals ≠ [] → cleanValues vals ≠ [] →
      (cleanValues vals).all (fun v => boolLitVals.contains (pyLower v)) = false →
      (cleanValues vals).all pyFloatParses = false →
      (((cleanValues vals).take 5).all d = true →
        infer_column_type d vals name = "TIMESTAMP") ∧
      (((cleanValues vals).take 5).all d = false →
        infer_column_type d vals name = "TEXT")) ∧
    (∀ d, infer_column_type d ["2024-01-01", "2024-01-02"] "BatchDate" = "TIMESTAMP") ∧
    (∀ d, infer_column_type d ["1", "2", "3"] "Count" = "FLOAT") ∧
    (∀ d, infer_column_type d ["yes", "no", "yes"] "Flag" = "BOOLEAN") ∧
    (∀ d, d "ok" = false →
      infer_column_type d ["ok", "n/a"] "Notes" = "TEXT") := by
  refine ⟨?_, ?_, ?_, ?_, ?_, ?_, ?_, ?_, ?_, ?_⟩
  · intro d vals name h
    simp only [infer_column_type]
    rw [if_pos h]
  · intro d vals name
    simp only [infer_column_type]
    repeat' split
    all_goals decide
  · intro d vals name hname hclean
    simp only [infer_column_type]
    rw [hname]
    by_cases hv : vals = []
    · rw [if_neg (by simp), if_pos hv]
    · rw [if_neg (by simp), if_neg hv, if_pos hclean]
  · intro d vals name hname hv hclean hbool
    simp only [infer_column_type]
    rw [hname, if_neg (by simp), if_neg hv, if_neg hclean, if_pos hbool]
  · intro d vals name hname hv hclean hbool hfloat
    simp only [infer_column_type]
    rw [hname, if_neg (by simp), if_neg hv, if_neg hclean, hbool,
      if_neg (by simp), if_pos hfloat]
  · intro d vals name hname hv hclean hbool hfloat
    constructor
    · intro hdate
      simp only [infer_column_type]
      rw [hname, if_neg (by simp), if_neg hv, if_neg hclean, hbool,
        if_neg (by simp), hfloat, if_neg (by simp), if_pos hdate]
    · intro hdate
      simp only [infer_column_type]
      rw [hname, if_neg (by simp), if_neg hv, if_neg hclean, hbool,
        if_neg (by simp), hfloat, if_neg (by simp), hdate, if_neg (by simp)]
  · intro d
    simp only [infer_column_type]
    rw [if_pos (by decide)]
  · intro d
    simp only [infer_column_type]
    rw [if_neg (by decide), if_neg (by decide)]
    have hc : cleanValues ["1", "2", "3"] = ["1", "2", "3"] := by decide
    rw [hc, if_neg (by decide), if_neg (by decide), if_pos (by decide)]
  · intro d
    simp only [infer_column_type]
    rw [if_neg (by decide), if_neg (by decide)]
    have hc : cleanValues ["yes", "no", "yes"] = ["yes", "no", "yes"] := by decide
    rw [hc, if_neg (by decide), if_pos (by decide)]
  · intro d hok
    simp only [infer_column_type]
    rw [if_neg (by decide), if_neg (by decide)]
    have hc : cleanValues ["ok", "n/a"] = ["ok", "n/a"] := by decide
    rw [hc, if_neg (by decide), if_neg (by decide), if_neg (by decide),
      if_neg (by simp [hok])]

/-- Witness for C4 at a concrete oracle rejecting every value: the Notes
example evaluates to TEXT. -/
theorem claim_C4_witness :
    infer_column_type (fun _ => false) ["ok", "n/a"] "Notes" = "TEXT" :=
  claim_C4.2.2.2.2.2.2.2.2.2 (fun _ => false) rfl

/-! ## Claim C7: table-name derivation -/

/-- Modelled from the words of claim C7: the table name is built by mapping
non-alphanumeric characters to underscore, collapsing repeated
underscores, trimming leading and trailing underscores, prefixing csv_
only if the name would start with a digit, appending the timestamp suffix,
and lower-casing. (The claim neither removes the .csv extension nor adds an
unconditional csv_ prefix.) -/
def claimTableNameC7 (filename : String) (timestamp : String) : String :=
  let name := subNonIdChar filename.data
  let name := collapseUnd name
  let name := stripUnd name
  let name :=
    if h : name ≠ [] then
      if (name.head h).isDigit then ('c' :: 's' :: 'v' :: '_' :: name) else name
    else name
  pyLower ⟨name ++ '_' :: timestamp.data⟩

/-- Counterexample to C7 as stated: for the filename data (no digits, no
extension) and a fixed timestamp, the code produces csv_data_... while the
construction described by the claim produces data_...: the code prefixes
csv_ unconditionally, not only for digit-leading names (and it also removes
.csv occurrences first, which the claim does not mention). -/
theorem claim_C7_cex :
    sanitize_table_name "data" "20240101_120000_000" ≠
      claimTableNameC7 "data" "20240101_120000_000" ∧
    sanitize_table_name "data" "20240101_120000_000" =
      "csv_data_20240101_120000_000" ∧
    claimTableNameC7 "data" "20240101_120000_000" =
      "data_20240101_120000_000" := by
  refine ⟨by decide, by decide, by decide⟩

/-- Modelled from the amended claim wording: remove every .csv occurrence,
map non-alphanumerics to underscore, collapse repeated underscores, trim
leading and trailing underscores, prefix csv_ (a second time) if the name
starts with a digit, then unconditionally prefix csv_, append the
timestamp suffix, and lower-case. -/
def amendedTableNameC7 (filename : String) (timestamp : String) : String :=
  let base := stripUnd (collapseUnd (subNonIdChar (stripCsvOcc filename.data)))
  let base :=
    if h : base ≠ [] then
      if (base.head h).isDigit then ('c' :: 's' :: 'v' :: '_' :: base) else base
    else base
  pyLower ⟨'c' :: 's' :: 'v' :: '_' :: (base ++ '_' :: timestamp.data)⟩

theorem char_isDigit_iff (c : Char) :
    c.isDigit = true ↔ 48 ≤ c.toNat ∧ c.toNat ≤ 57 := by
  simp only [Char.isDigit, Bool.and_eq_true, decide_eq_true_eq]
  exact Iff.rfl

/-- Lower-casing fixes digits and the underscore. -/
theorem pyCharLower_fixed (c : Char) (h : (c.isDigit || c == '_') = true) :
    pyCharLower c = c := by
  unfold pyCharLower
  rw [if_neg]
  rcases Bool.or_eq_true_iff.mp h with hd | hu
  · have := (char_isDigit_iff c).mp hd
    omega
  · have : c = '_' := by
      exact beq_iff_eq.mp hu
    subst this
    decide

/-- Lower-casing fixes strings of digits and underscores. -/
theorem pyLowerList_fixed (l : List Char)
    (h : l.all (fun c => c.isDigit || c == '_') = true) :
    pyLowerList l = l := by
  induction l with
  | nil => rfl
  | cons c rest ih =>
    rw [List.all_cons, Bool.and_eq_true] at h
    simp only [pyLowerList, List.map_cons]
    rw [pyCharLower_fixed c h.1]
    have := ih h.2
    simp only [pyLowerList] at this
    rw [this]

/-- C7 (amended): the derived table name is built by removing .csv
occurrences, mapping non-alphanumeric characters to underscore, collapsing
repeated underscores, trimming leading and trailing underscores, prefixing
csv_ a second time only if the name would start with a digit, always
prefixing csv_ and appending the timestamp suffix, and lower-casing; and
two uploads of the same filename at distinct timestamps (strings of digits
and underscores, as the strftime format produces) yield distinct table
names. -/
theorem claim_C7 :
    (∀ filename timestamp,
      sanitize_table_name filename timestamp =
        amendedTableNameC7 filename timestamp) ∧
    (∀ filename ts1 ts2,
      ts1.data.all (fun c => c.isDigit || c == '_') = true →
      ts2.data.all (fun c => c.isDigit || c == '_') = true →
      ts1 ≠ ts2 →
      sanitize_table_name filename ts1 ≠ sanitize_table_name filename ts2) := by
  constructor
  · intro filename timestamp
    rfl
  · intro filename ts1 ts2 h1 h2 hne heq
    apply hne
    have heqd := congrArg String.data heq
    simp only [sanitize_table_name, pyLower] at heqd
    simp only [pyLowerList, List.map_cons, List.map_append, List.cons.injEq,
      true_and] at heqd
    have heq2 := List.append_cancel_left heqd
    rw [List.cons.injEq] at heq2
    have h3 : pyLowerList ts1.data = pyLowerList ts2.data := heq2.2
    rw [pyLowerList_fixed ts1.data h1, pyLowerList_fixed ts2.data h2] at h3
    exact String.toList_inj.mp h3

/-- Witness for C7 at concrete inputs: the same filename at two distinct
timestamps yields distinct table names. -/
theorem claim_C7_witness :
    sanitize_table_name "batch" "20240101_120000_000" ≠
      sanitize_table_name "batch" "20240101_120000_001" :=
  claim_C7.2 "batch" "20240101_120000_000" "20240101_120000_001"
    (by decide) (by decide) (by decide)

/-! ## Claim C8: column sanitization in dynamic tables -/

theorem char_isUpper_iff (c : Char) :
    c.isUpper = true ↔ 65 ≤ c.toNat ∧ c.toNat ≤ 90 := by
  simp only [Char.isUpper, Bool.and_eq_true, decide_eq_true_eq]
  exact Iff.rfl

theorem char_isLower_iff (c : Char) :
    c.isLower = true ↔ 97 ≤ c.toNat ∧ c.toNat ≤ 122 := by
  simp only [Char.isLower, Bool.and_eq_true, decide_eq_true_eq]
  exact Iff.rfl

theorem char_toNat_ofNat_valid {n : Nat} (h : n.isValidChar) :
    (Char.ofNat n).toNat = n := by
  simp only [Char.ofNat, dif_pos h, Char.ofNatAux, Char.toNat, UInt32.toNat]
  simp

theorem char_eq_of_toNat_eq {c d : Char} (h : c.toNat = d.toNat) : c = d := by
  apply Char.ext
  exact UInt32.ext h

/-- Equality with the underscore in terms of the code point. -/
theorem char_eq_underscore_iff (c : Char) : c = '_' ↔ c.toNat = 95 := by
  constructor
  · intro h
    rw [h]
    rfl
  · intro h
    refine char_eq_of_toNat_eq ?_
    rw [h]
    rfl

/-- The identifier-character test in terms of code points. -/
theorem char_idChar_iff (c : Char) : idChar c = true ↔
    (65 ≤ c.toNat ∧ c.toNat ≤ 90) ∨ (97 ≤ c.toNat ∧ c.toNat ≤ 122) ∨
    (48 ≤ c.toNat ∧ c.toNat ≤ 57) ∨ c.toNat = 95 := by
  simp only [idChar, Char.isAlpha, Bool.or_eq_true, char_isUpper_iff,
    char_isLower_iff, char_isDigit_iff, beq_iff_eq, char_eq_underscore_iff]
  tauto

/-- Lower-casing an identifier character yields a lower-case letter, a
digit or an underscore. -/
theorem pyCharLower_of_idChar (c : Char) (h : idChar c = true) :
    ((pyCharLower c).isLower || (pyCharLower c).isDigit ||
      pyCharLower c == '_') = true := by
  rcases (char_idChar_iff c).mp h with hu | hl | hd | hund
  · have hv : (c.toNat + 32).isValidChar := Or.inl (by omega)
    have ht : (pyCharLower c).toNat = c.toNat + 32 := by
      unfold pyCharLower
      rw [if_pos hu]
      exact char_toNat_ofNat_valid hv
    have : (pyCharLower c).isLower = true := (char_isLower_iff _).mpr (by omega)
    simp [this]
  · have he : pyCharLower c = c := by
      unfold pyCharLower
      rw [if_neg (by omega)]
    rw [he]
    have : c.isLower = true := (char_isLower_iff _).mpr hl
    simp [this]
  · have he : pyCharLower c = c := by
      unfold pyCharLower
      rw [if_neg (by omega)]
    rw [he]
    have : c.isDigit = true := (char_isDigit_iff _).mpr hd
    simp [this]
  · have he : pyCharLower c = c := by
      unfold pyCharLower
      rw [if_neg (by omega)]
    rw [he]
    have : c = '_' := char_eq_of_toNat_eq (by rw [hund]; rfl)
    simp [this]

/-- Lower-casing preserves the identifier-character test. -/
theorem idChar_pyCharLower (c : Char) :
    idChar (pyCharLower c) = idChar c := by
  by_cases hu : 65 ≤ c.toNat ∧ c.toNat ≤ 90
  · have hv : (c.toNat + 32).isValidChar := Or.inl (by omega)
    have ht : (pyCharLower c).toNat = c.toNat + 32 := by
      unfold pyCharLower
      rw [if_pos hu]
      exact char_toNat_ofNat_valid hv
    have h1 : idChar (pyCharLower c) = true :=
      (char_idChar_iff _).mpr (Or.inr (Or.inl (by omega)))
    have h2 : idChar c = true := (char_idChar_iff _).mpr (Or.inl hu)
    rw [h1, h2]
  · have he : pyCharLower c = c := by
      unfold pyCharLower
      rw [if_neg hu]
    rw [he]

/-- Substitution and lower-casing commute on one character. -/
theorem subChar_lower_comm (c : Char) :
    pyCharLower (if idChar c then c else '_') =
      (if idChar (pyCharLower c) then pyCharLower c else '_') := by
  rw [idChar_pyCharLower]
  by_cases hid : idChar c = true
  · rw [if_pos hid, if_pos hid]
  · rw [if_neg hid, if_neg hid]
    decide

/-- Substitution and lower-casing commute on character lists. -/
theorem sub_lower_comm (l : List Char) :
    pyLowerList (subNonIdChar l) = subNonIdChar (pyLowerList l) := by
  simp only [pyLowerList, subNonIdChar, List.map_map]
  apply List.map_congr_left
  intro c _
  exact subChar_lower_comm c

/-- A substitution output without underscores determines its input. -/
theorem subNonIdChar_eq_id (m : List Char) (h : subNonIdChar m = ['i', 'd']) :
    m = ['i', 'd'] := by
  match m with
  | [] => simp [subNonIdChar] at h
  | [a] => simp [subNonIdChar] at h
  | a :: b :: c :: rest =>
    simp only [subNonIdChar, List.map_cons] at h
    have := congrArg List.length h
    simp at this
  | [a, b] =>
    simp only [subNonIdChar, List.map_cons, List.map_nil, List.cons.injEq,
      and_true] at h
    obtain ⟨ha, hb⟩ := h
    have ha2 : a = 'i' := by
      by_cases hid : idChar a = true
      · rw [if_pos hid] at ha
        exact ha
      · rw [if_neg hid] at ha
        exact absurd ha (by decide)
    have hb2 : b = 'd' := by
      by_cases hid : idChar b = true
      · rw [if_pos hid] at hb
        exact hb
      · rw [if_neg hid] at hb
        exact absurd hb (by decide)
    rw [ha2, hb2]

/-- Counterexample to C8 as stated: a CSV column named anomaly_alert is not
renamed (the source checks only id and upload_timestamp), so the generated
declaration list declares the name anomaly_alert twice; and a column named
Upload Timestamp sanitizes to exactly upload_timestamp without the csv_
prefix, shadowing that system column as well (the collision test runs on
the original name, before sanitization introduces underscores). -/
theorem claim_C8_cex :
    sanitizeColumnName "anomaly_alert" = "anomaly_alert" ∧
    sanitizeColumnName "Upload Timestamp" = "upload_timestamp" ∧
    ((create_dynamic_table_columns [("anomaly_alert", "TEXT")]).map
      ColDecl.name).count "anomaly_alert" = 2 := by
  refine ⟨by decide, by decide, by decide⟩

/-- C8 (amended): every non-system CSV column is sanitized to characters
[a-zA-Z0-9_] and lower-cased, and is renamed with a csv_ prefix exactly
when the original name lower-cases to id or upload_timestamp; consequently
no user column ever declares the name id, but the sanitized name can still
collide with upload_timestamp or anomaly_alert (the source does not rename
those cases). -/
theorem claim_C8 : ∀ (columns : List (String × String)) (p : String × String),
    p ∈ columns →
    ({ name := sanitizeColumnName p.1, decl := sqlTypeFor p.2 : ColDecl } ∈
      create_dynamic_table_columns columns) ∧
    (∀ c ∈ (sanitizeColumnName p.1).data,
      (c.isLower || c.isDigit || c == '_') = true) ∧
    ((pyLower p.1 = "id" ∨ pyLower p.1 = "upload_timestamp") →
      sanitizeColumnName p.1 = "csv_" ++ pyLower ⟨subNonIdChar p.1.data⟩) ∧
    (¬(pyLower p.1 = "id" ∨ pyLower p.1 = "upload_timestamp") →
      sanitizeColumnName p.1 = pyLower ⟨subNonIdChar p.1.data⟩) ∧
    sanitizeColumnName p.1 ≠ "id" := by
  intro columns p hp
  refine ⟨?_, ?_, ?_, ?_, ?_⟩
  · unfold create_dynamic_table_columns
    apply List.mem_cons_of_mem
    apply List.mem_cons_of_mem
    apply List.mem_append_left
    exact List.mem_map.mpr ⟨p, hp, rfl⟩
  · intro c hc
    unfold sanitizeColumnName at hc
    have hsafe : ∀ c ∈ (pyLower ⟨subNonIdChar p.1.data⟩).data,
        (c.isLower || c.isDigit || c == '_') = true := by
      intro d hd
      simp only [pyLower, pyLowerList, subNonIdChar, List.map_map] at hd
      obtain ⟨a, _, ha⟩ := List.mem_map.mp hd
      subst ha
      by_cases hid : idChar a = true
      · simp only [Function.comp_apply, if_pos hid]
        exact pyCharLower_of_idChar a hid
      · simp only [Function.comp_apply, if_neg hid]
        decide
    split at hc
    · rw [String.data_append] at hc
      rcases List.mem_append.mp hc with h4 | htl
      · fin_cases h4 <;> decide
      · exact hsafe c htl
    · exact hsafe c hc
  · intro hcond
    unfold sanitizeColumnName
    rw [if_pos hcond]
  · intro hcond
    unfold sanitizeColumnName
    rw [if_neg hcond]
  · intro heq
    unfold sanitizeColumnName at heq
    split at heq
    · have hlen := congrArg String.length heq
      rw [String.length_append] at hlen
      have h4 : ("csv_").length = 4 := rfl
      have h2 : ("id").length = 2 := rfl
      rw [h4, h2] at hlen
      omega
    · next hcond =>
      apply hcond
      left
      have hdata := congrArg String.data heq
      simp only [pyLower] at hdata
      rw [sub_lower_comm] at hdata
      have : pyLowerList p.1.data = ['i', 'd'] := subNonIdChar_eq_id _ hdata
      simp only [pyLower]
      rw [this]

/-- Witness for C8 at a concrete column list: the column named ID is
renamed to csv_id and never shadows the id surrogate key. -/
theorem claim_C8_witness :
    ({ name := sanitizeColumnName "ID", decl := sqlTypeFor "FLOAT" : ColDecl } ∈
      create_dynamic_table_columns [("ID", "FLOAT")]) ∧
    sanitizeColumnName "ID" ≠ "id" :=
  ⟨(claim_C8 [("ID", "FLOAT")] ("ID", "FLOAT") (by decide)).1,
   (claim_C8 [("ID", "FLOAT")] ("ID", "FLOAT") (by decide)).2.2.2.2⟩

/-! ## Claim C3: the unified view -/

/-- The branch item for a global column the table has is never its NULL
padding, and it is NULL padding exactly for the columns the table lacks. -/
theorem branchItem_eq_nullCol_iff (tcols : List String) (c d : String) :
    branchItem tcols c = SelectItem.nullCol d ↔ c = d ∧ c ∉ tcols := by
  unfold branchItem
  split
  · next hc =>
    constructor
    · intro h
      split at h <;> simp at h
    · rintro ⟨-, habs⟩
      exact absurd hc habs
  · next hc =>
    constructor
    · intro h
      cases h
      exact ⟨rfl, hc⟩
    · rintro ⟨rfl, -⟩
      rfl

/-- C3: when zero tables are registered the rebuild creates no view; when
at least one table is registered the view exists, its global column list is
sorted, duplicate-free, and a column belongs to it exactly when some
registered table has it among its sanitized columns (the three implicit
columns id, upload_timestamp, anomaly_alert always do); each table
contributes one branch with one item per global column, and that item is
the NULL padding exactly for the global columns the table lacks. -/
theorem claim_C3 :
    create_unified_view [] = none ∧
    (∀ ts : List TableMeta, ts ≠ [] →
      ∃ v, create_unified_view ts = some v ∧
        v.columns.Sorted (· ≤ ·) ∧
        v.columns.Nodup ∧
        (∀ c, c ∈ v.columns ↔ ∃ t ∈ ts, c ∈ tableSafeCols t) ∧
        (∀ c ∈ implicitCols, c ∈ v.columns) ∧
        List.Forall₂ (fun (t : TableMeta) (b : ViewBranch) =>
          b.items.length = v.columns.length ∧
          ∀ c ∈ v.columns,
            (SelectItem.nullCol c ∈ b.items ↔ c ∉ tableSafeCols t)) ts v.branches) := by
  constructor
  · rfl
  · intro ts hts
    obtain ⟨t0, ht0⟩ := List.exists_mem_of_ne_nil ts hts
    have hmem0 : "id" ∈ (ts.map tableSafeCols).flatten :=
      List.mem_flatten.mpr ⟨tableSafeCols t0, List.mem_map.mpr ⟨t0, ht0, rfl⟩,
        List.mem_append_right _ (by decide)⟩
    have hall : (ts.map tableSafeCols).flatten.dedup ≠ [] :=
      List.ne_nil_of_mem (List.mem_dedup.mpr hmem0)
    have hbr : ts.map (fun t =>
        { source_filename := t.filename
          source_table := t.table_name
          source_upload_time := t.table_name
          items := ((ts.map tableSafeCols).flatten.dedup.insertionSort
            (· ≤ ·)).map (branchItem (tableSafeCols t)) : ViewBranch }) ≠ [] := by
      intro h
      exact hts (List.map_eq_nil_iff.mp h)
    refine ⟨{ columns := (ts.map tableSafeCols).flatten.dedup.insertionSort (· ≤ ·)
              branches := ts.map (fun t =>
                { source_filename := t.filename
                  source_table := t.table_name
                  source_upload_time := t.table_name
                  items := ((ts.map tableSafeCols).flatten.dedup.insertionSort
                    (· ≤ ·)).map (branchItem (tableSafeCols t)) }) },
      ?_, ?_, ?_, ?_, ?_, ?_⟩
    · simp only [create_unified_view]
      rw [if_neg hts, if_neg hall, if_neg hbr]
    · exact List.sorted_insertionSort _ _
    · exact ((List.perm_insertionSort _ _).nodup_iff).mpr (List.nodup_dedup _)
    · intro c
      rw [List.mem_insertionSort, List.mem_dedup, List.mem_flatten]
      constructor
      · rintro ⟨l, hl, hcl⟩
        obtain ⟨t, ht, rfl⟩ := List.mem_map.mp hl
        exact ⟨t, ht, hcl⟩
      · rintro ⟨t, ht, hcl⟩
        exact ⟨tableSafeCols t, List.mem_map.mpr ⟨t, ht, rfl⟩, hcl⟩
    · intro c hc
      rw [List.mem_insertionSort, List.mem_dedup, List.mem_flatten]
      exact ⟨tableSafeCols t0, List.mem_map.mpr ⟨t0, ht0, rfl⟩,
        List.mem_append_right _ hc⟩
    · rw [List.forall₂_map_right_iff]
      rw [List.forall₂_same]
      intro t _
      constructor
      · rw [List.length_map]
      · intro c hc
        constructor
        · intro h
          obtain ⟨d, _, hd⟩ := List.mem_map.mp h
          obtain ⟨rfl, hnot⟩ := (branchItem_eq_nullCol_iff _ _ _).mp hd
          exact hnot
        · intro h
          exact List.mem_map.mpr ⟨c, hc,
            (branchItem_eq_nullCol_iff _ _ _).mpr ⟨rfl, h⟩⟩

/-- Witness for C3 at a concrete single registered table: the view is
created. -/
theorem claim_C3_witness :
    (create_unified_view
      [{ filename := "batches.csv", table_name := "csv_batches_1",
         cols := ["BatchID"] }]).isSome = true := by
  obtain ⟨v, hv, -⟩ := claim_C3.2
    [{ filename := "batches.csv", table_name := "csv_batches_1",
       cols := ["BatchID"] }] (by simp)
  rw [hv]
  rfl

/-! ## Claims C5, C6, C9: the detect_and_update pipeline -/

/-- On the success path, detect_and_update appends the alert pairs of the
valid rows as its first commit and, unless the history write fails, the
history records of the RED and AMBER valid rows as its second commit. -/
theorem detect_success_eq (env : DetectEnv) (tableCols : List String)
    (rows : List ScoredRow) (db : DbState)
    (h1 : env.modelLoaded = true) (h2 : rows ≠ [])
    (h3 : missingFeatures tableCols = [])
    (h4 : rows.filter validRow ≠ []) :
    detect_and_update env tableCols rows db =
      (if env.historyWriteFails then
        { db with alerts := db.alerts ++
            alertPairs env.predict (rows.filter validRow) }
       else
        { alerts := db.alerts ++ alertPairs env.predict (rows.filter validRow)
          history := db.history ++
            historyRecords env.predict (rows.filter validRow) },
       { status := "success",
         anomalies :=
           (severityIds env.predict (rows.filter validRow) "RED").length +
           (severityIds env.predict (rows.filter validRow) "AMBER").length }) := by
  simp only [detect_and_update]
  rw [if_neg (by simp [h1]), if_neg h2, if_neg (by simp [h3]), if_neg h4]

/-- Every id in a severity bucket comes from a valid row with that id. -/
theorem severityIds_sound (p : ScoredRow → Int) (valid : List ScoredRow)
    (sev : String) (i : Nat) (h : i ∈ severityIds p valid sev) :
    ∃ r ∈ valid, r.id = i := by
  unfold severityIds at h
  obtain ⟨r, hr, rfl⟩ := List.mem_map.mp h
  exact ⟨r, (List.mem_filter.mp hr).1, rfl⟩

/-- Every written alert pair comes from a valid row with that id. -/
theorem alertPairs_sound (p : ScoredRow → Int) (valid : List ScoredRow)
    (pr : Nat × String) (h : pr ∈ alertPairs p valid) :
    ∃ r ∈ valid, r.id = pr.1 := by
  unfold alertPairs at h
  rcases List.mem_append.mp h with h | h
  · rcases List.mem_append.mp h with h | h
    · obtain ⟨i, hi, rfl⟩ := List.mem_map.mp h
      exact severityIds_sound p valid "RED" i hi
    · obtain ⟨i, hi, rfl⟩ := List.mem_map.mp h
      exact severityIds_sound p valid "AMBER" i hi
  · obtain ⟨i, hi, rfl⟩ := List.mem_map.mp h
    exact severityIds_sound p valid "GREEN" i hi

/-- Every history record comes from a valid row, and carries that row and
its RED or AMBER severity. -/
theorem historyRecords_sound (p : ScoredRow → Int) (valid : List ScoredRow)
    (h : HistoryRec) (hh : h ∈ historyRecords p valid) :
    h.source ∈ valid ∧ h.severity = rowSeverity p h.source ∧
    (rowSeverity p h.source = "RED" ∨ rowSeverity p h.source = "AMBER") := by
  unfold historyRecords at hh
  obtain ⟨r, hr, rfl⟩ := List.mem_map.mp hh
  obtain ⟨hmem, hcond⟩ := List.mem_filter.mp hr
  rcases Bool.or_eq_true_iff.mp hcond with hc | hc
  · exact ⟨hmem, rfl, Or.inl (beq_iff_eq.mp hc)⟩
  · exact ⟨hmem, rfl, Or.inr (beq_iff_eq.mp hc)⟩

/-- C9: detect_and_update distinguishes skip conditions from errors: an
unloaded model, an empty table, and missing required feature columns each
return a skipped status (with the reason, and for missing columns the list
of missing required features) without touching the database; every skipped
return leaves the database unchanged; and the status is always skipped or
success, never error (the error status of the source arises only from
database exceptions, which the pure model does not raise). -/
theorem claim_C9 : ∀ (env : DetectEnv) (tableCols : List String)
    (rows : List ScoredRow) (db : DbState),
    (env.modelLoaded = false →
      detect_and_update env tableCols rows db =
        (db, { status := "skipped", reason := "model_not_loaded" })) ∧
    (env.modelLoaded = true → rows = [] →
      detect_and_update env tableCols rows db =
        (db, { status := "skipped", reason := "no_data" })) ∧
    (env.modelLoaded = true → rows ≠ [] → missingFeatures tableCols ≠ [] →
      detect_and_update env tableCols rows db =
        (db, { status := "skipped", reason := "missing_columns",
               missing := missingFeatures tableCols })) ∧
    ((detect_and_update env tableCols rows db).2.status = "skipped" →
      (detect_and_update env tableCols rows db).1 = db) ∧
    ((detect_and_update env tableCols rows db).2.status = "skipped" ∨
      (detect_and_update env tableCols rows db).2.status = "success") := by
  intro env tableCols rows db
  refine ⟨?_, ?_, ?_, ?_, ?_⟩
  · intro h
    simp only [detect_and_update]
    rw [if_pos h]
  · intro h1 h2
    simp only [detect_and_update]
    rw [if_neg (by simp [h1]), if_pos h2]
  · intro h1 h2 h3
    simp only [detect_and_update]
    rw [if_neg (by simp [h1]), if_neg h2, if_pos h3]
  · simp only [detect_and_update]
    repeat' split
    all_goals first
      | (intro _; rfl)
      | (intro h;
         exact absurd h (show ¬(("success" : String) = "skipped") from by decide))
  · simp only [detect_and_update]
    repeat' split
    all_goals first
      | exact Or.inl rfl
      | exact Or.inr rfl

/-- Witness for C9 at a concrete unloaded-model environment: the call is
skipped with reason model_not_loaded and the database is untouched. -/
theorem claim_C9_witness :
    detect_and_update
      { modelLoaded := false, predict := fun _ => 1, historyWriteFails := false }
      [] [] { alerts := [], history := [] } =
      ({ alerts := [], history := [] },
       { status := "skipped", reason := "model_not_loaded" }) :=
  (claim_C9
    { modelLoaded := false, predict := fun _ => 1, historyWriteFails := false }
    [] [] { alerts := [], history := [] }).1 rfl

/-- C5: a row with NaN in any of the six required features is excluded
before scoring and never receives a severity: no alert pair with its id is
written (given distinct row ids) and no history record is built from it;
and when no row survives the NaN filter (on the path that reaches the
filter: model loaded, nonempty table, no missing columns) the call returns
skipped with reason no_valid_data_rows and writes nothing. -/
theorem claim_C5 : ∀ (env : DetectEnv) (tableCols : List String)
    (rows : List ScoredRow) (db : DbState) (r : ScoredRow),
    r ∈ rows → validRow r = false →
    ((rows.map ScoredRow.id).Nodup →
      ∀ s, (r.id, s) ∈ (detect_and_update env tableCols rows db).1.alerts →
        (r.id, s) ∈ db.alerts) ∧
    (∀ h ∈ (detect_and_update env tableCols rows db).1.history,
      h ∈ db.history ∨ h.source ≠ r) ∧
    (env.modelLoaded = true → missingFeatures tableCols = [] →
      (∀ r2 ∈ rows, validRow r2 = false) →
      detect_and_update env tableCols rows db =
        (db, { status := "skipped", reason := "no_valid_data_rows" })) := by
  intro env tableCols rows db r hr hinv
  have hrows : rows ≠ [] := List.ne_nil_of_mem hr
  refine ⟨?_, ?_, ?_⟩
  · intro hnd s hmem
    simp only [detect_and_update] at hmem
    repeat' split at hmem
    all_goals try exact hmem
    all_goals
      rcases List.mem_append.mp hmem with hI | hI
    all_goals try exact hI
    all_goals
      obtain ⟨r2, hr2, hid⟩ :=
        alertPairs_sound env.predict (rows.filter validRow) _ hI
    all_goals
      obtain ⟨hr2row, hr2valid⟩ := List.mem_filter.mp hr2
    all_goals
      have heq2 : r2 = r := List.inj_on_of_nodup_map hnd hr2row hr hid
    all_goals
      rw [heq2, hinv] at hr2valid
    all_goals exact absurd hr2valid (by decide)
  · intro h hmem
    simp only [detect_and_update] at hmem
    repeat' split at hmem
    all_goals try exact Or.inl hmem
    all_goals
      rcases List.mem_append.mp hmem with h2 | h2
    all_goals try exact Or.inl h2
    all_goals
      obtain ⟨hsrc, -, -⟩ :=
        historyRecords_sound env.predict (rows.filter validRow) h h2
    all_goals
      have hvalid := (List.mem_filter.mp hsrc).2
    all_goals
      refine Or.inr ?_
    all_goals
      intro habs
    all_goals
      rw [habs, hinv] at hvalid
    all_goals exact absurd hvalid (by decide)
  · intro h1 h2 hall
    have hempty : rows.filter validRow = [] := by
      apply List.filter_eq_nil_iff.mpr
      intro r2 hr2
      rw [hall r2 hr2]
      decide
    simp only [detect_and_update]
    rw [if_neg (by simp [h1]), if_neg hrows, if_neg (by simp [h2]),
      if_pos hempty]

/-- Witness for C5 at a concrete table of one NaN row: the call is skipped
with reason no_valid_data_rows and the database is untouched. -/
theorem claim_C5_witness :
    detect_and_update
      { modelLoaded := true, predict := fun _ => 1, historyWriteFails := false }
      ["Energy_kWh", "OutputWeight_kg", "InputWeight_kg", "RoomTemp_C"]
      [{ id := 1, energy_kWh := none, energy_per_kg := none,
         yield_loss_pct := none, roomTemp_C := none, co2_per_kg := none,
         energy_x_temp := none }]
      { alerts := [], history := [] } =
      ({ alerts := [], history := [] },
       { status := "skipped", reason := "no_valid_data_rows" }) :=
  (claim_C5
    { modelLoaded := true, predict := fun _ => 1, historyWriteFails := false }
    ["Energy_kWh", "OutputWeight_kg", "InputWeight_kg", "RoomTemp_C"]
    [{ id := 1, energy_kWh := none, energy_per_kg := none,
       yield_loss_pct := none, roomTemp_C := none, co2_per_kg := none,
       energy_x_temp := none }]
    { alerts := [], history := [] }
    { id := 1, energy_kWh := none, energy_per_kg := none,
      yield_loss_pct := none, roomTemp_C := none, co2_per_kg := none,
      energy_x_temp := none }
    (by decide) (by decide)).2.2 rfl (by decide)
    (by
      intro r2 hr2
      fin_cases hr2
      decide)

/-- C6: on the success path detect_and_update appends exactly one history
record per valid row classified RED or AMBER and never one for a GREEN
row, and the anomaly_alert update and the history insert are independent
commit boundaries: when the history write fails, only the history write is
rolled back (the history log is exactly as before) while the
already-committed alert updates are identical to those of a successful
run. -/
theorem claim_C6 : ∀ (env : DetectEnv) (tableCols : List String)
    (rows : List ScoredRow) (db : DbState),
    env.modelLoaded = true → rows ≠ [] → missingFeatures tableCols = [] →
    rows.filter validRow ≠ [] →
    ((detect_and_update { env with historyWriteFails := true }
        tableCols rows db).1.alerts =
      db.alerts ++ alertPairs env.predict (rows.filter validRow)) ∧
    ((detect_and_update { env with historyWriteFails := false }
        tableCols rows db).1.alerts =
      (detect_and_update { env with historyWriteFails := true }
        tableCols rows db).1.alerts) ∧
    ((detect_and_update { env with historyWriteFails := true }
        tableCols rows db).1.history = db.history) ∧
    ((detect_and_update { env with historyWriteFails := false }
        tableCols rows db).1.history =
      db.history ++ historyRecords env.predict (rows.filter validRow)) ∧
    ((historyRecords env.predict (rows.filter validRow)).length =
      ((rows.filter validRow).filter
        (fun r => rowSeverity env.predict r == "RED" ||
          rowSeverity env.predict r == "AMBER")).length) ∧
    (∀ h ∈ historyRecords env.predict (rows.filter validRow),
      (h.severity = "RED" ∨ h.severity = "AMBER") ∧ h.severity ≠ "GREEN") ∧
    (∀ r ∈ rows.filter validRow,
      rowSeverity env.predict r = "RED" ∨ rowSeverity env.predict r = "AMBER" →
      ∃ h ∈ historyRecords env.predict (rows.filter validRow),
        h.source = r ∧ h.severity = rowSeverity env.predict r) ∧
    (∀ r ∈ rows.filter validRow, rowSeverity env.predict r = "GREEN" →
      ∀ h ∈ historyRecords env.predict (rows.filter validRow),
        h.source ≠ r) := by
  intro env tableCols rows db h1 h2 h3 h4
  have hT := detect_success_eq { env with historyWriteFails := true }
    tableCols rows db h1 h2 h3 h4
  have hF := detect_success_eq { env with historyWriteFails := false }
    tableCols rows db h1 h2 h3 h4
  rw [if_pos rfl] at hT
  rw [if_neg (by simp)] at hF
  refine ⟨?_, ?_, ?_, ?_, ?_, ?_, ?_, ?_⟩
  · rw [hT]
  · rw [hT, hF]
  · rw [hT]
  · rw [hF]
  · unfold historyRecords
    rw [List.length_map]
  · intro h hh
    obtain ⟨-, hsev, hra⟩ :=
      historyRecords_sound env.predict (rows.filter validRow) h hh
    rw [hsev]
    rcases hra with hc | hc <;> rw [hc]
    · exact ⟨Or.inl rfl, by decide⟩
    · exact ⟨Or.inr rfl, by decide⟩
  · intro r hrv hra
    refine ⟨{ source := r, severity := rowSeverity env.predict r }, ?_, rfl, rfl⟩
    unfold historyRecords
    refine List.mem_map.mpr ⟨r, ?_, rfl⟩
    refine List.mem_filter.mpr ⟨hrv, ?_⟩
    rcases hra with hc | hc <;> rw [hc] <;> decide
  · intro r hrv hgreen h hh habs
    obtain ⟨-, -, hra⟩ :=
      historyRecords_sound env.predict (rows.filter validRow) h hh
    rw [habs, hgreen] at hra
    rcases hra with hc | hc <;> exact absurd hc (by decide)

/-- Witness for C6 at a concrete one-row table whose row breaches the
energy hard rule: with a failing history commit the alert update survives
and the history stays empty. -/
theorem claim_C6_witness :
    (detect_and_update
      { modelLoaded := true, predict := fun _ => 1, historyWriteFails := true }
      ["Energy_kWh", "OutputWeight_kg", "InputWeight_kg", "RoomTemp_C"]
      [{ id := 1, energy_kWh := some 1600, energy_per_kg := some 3,
         yield_loss_pct := some 2, roomTemp_C := some 20, co2_per_kg := some 1,
         energy_x_temp := some 32000 }]
      { alerts := [], history := [] }).1.alerts = [(1, "RED")] ∧
    (detect_and_update
      { modelLoaded := true, predict := fun _ => 1, historyWriteFails := true }
      ["Energy_kWh", "OutputWeight_kg", "InputWeight_kg", "RoomTemp_C"]
      [{ id := 1, energy_kWh := some 1600, energy_per_kg := some 3,
         yield_loss_pct := some 2, roomTemp_C := some 20, co2_per_kg := some 1,
         energy_x_temp := some 32000 }]
      { alerts := [], history := [] }).1.history = [] := by
  have h := claim_C6
    { modelLoaded := true, predict := fun _ => 1, historyWriteFails := true }
    ["Energy_kWh", "OutputWeight_kg", "InputWeight_kg", "RoomTemp_C"]
    [{ id := 1, energy_kWh := some 1600, energy_per_kg := some 3,
       yield_loss_pct := some 2, roomTemp_C := some 20, co2_per_kg := some 1,
       energy_x_temp := some 32000 }]
    { alerts := [], history := [] }
    rfl (by decide) (by decide) (by decide)
  refine ⟨?_, ?_⟩
  · rw [h.1]
    decide
  · rw [h.2.2.1]

end BatchWise

